import Mathlib

/-!
# Verification of `linux_health_check.py`

A shallow embedding, in Lean 4, of the pure decision logic of the
`linux-health-checks` repository (file `linux_health_check.py`), together with
theorems settling the specification claims about it.

Conventions of the embedding:
* Python strings are Lean `String`s; most character-level processing is done on
  `List Char` (the `.data` view), mirroring Python's per-character semantics
  for the ASCII subset that the program manipulates.
* Python `int(...)` / `float(...)` parsing is modelled by `pyInt` / `pyFloat`
  for ASCII decimal literals (the inputs the program feeds them).  Exact binary
  floating point is idealised as `ℚ`; the numeric *formatting* used only inside
  human-readable description strings is abstracted as a function parameter.
* Fallible Python code is modelled with `Option` / `Except PyExn`.
* The global `issues` list is modelled by explicit state passing of
  `List Issue`.
-/

set_option autoImplicit false
set_option linter.unusedVariables false

namespace HealthCheck

/-! ## Python character and string primitives -/

/-- ASCII decimal digit test: `'0' ≤ c ≤ '9'`, stated on code points. -/
def isPyDigit (c : Char) : Bool := 48 ≤ c.toNat && c.toNat ≤ 57

/-- Python `str.strip()` whitespace (ASCII subset): space, `\t`, `\n`, `\r`,
vertical tab, form feed. -/
def isPySpace (c : Char) : Bool :=
  c.toNat = 32 || c.toNat = 9 || c.toNat = 10 || c.toNat = 13 ||
    c.toNat = 11 || c.toNat = 12

/-- Strip `isPySpace` characters from both ends (Python `str.strip()`). -/
def pyStripList (cs : List Char) : List Char :=
  ((cs.dropWhile isPySpace).reverse.dropWhile isPySpace).reverse

/-- Python `str.strip()` on a `String`. -/
def pyStrip (s : String) : String := ⟨pyStripList s.data⟩

/-- Python `str.split(sep)` for a one-character separator: keeps empty chunks,
`"".split(sep) == [""]`. -/
def pySplit (sep : Char) : List Char → List (List Char)
  | [] => [[]]
  | c :: rest =>
    if c = sep then [] :: pySplit sep rest
    else
      match pySplit sep rest with
      | [] => [[c]]
      | g :: gs => (c :: g) :: gs

/-- Python `str.split()` with no argument: split on runs of whitespace and
drop empty chunks. -/
def pySplitWs (cs : List Char) : List (List Char) :=
  ((pySplit ' ' (cs.map (fun c => if isPySpace c then ' ' else c))).filter
    (fun g => !g.isEmpty))

/-- Lowercase one ASCII character (Python `str.lower` on the ASCII subset). -/
def pyLowerChar (c : Char) : Char :=
  if 65 ≤ c.toNat ∧ c.toNat ≤ 90 then Char.ofNat (c.toNat + 32) else c

/-- Uppercase one ASCII character (Python `str.upper` on the ASCII subset). -/
def pyUpperChar (c : Char) : Char :=
  if 97 ≤ c.toNat ∧ c.toNat ≤ 122 then Char.ofNat (c.toNat - 32) else c

/-- Python `str.lower()` (ASCII subset). -/
def pyLower (s : String) : String := ⟨s.data.map pyLowerChar⟩

/-- Python `str.upper()` (ASCII subset). -/
def pyUpper (s : String) : String := ⟨s.data.map pyUpperChar⟩

/-- Does `l` begin with `p`? (Python `str.startswith`.) -/
def listStarts : List Char → List Char → Bool
  | _, [] => true
  | [], _ :: _ => false
  | c :: cs, p :: ps => c = p && listStarts cs ps

/-- Python substring containment `sub in l`. -/
def listContainsSub (l sub : List Char) : Bool :=
  match l with
  | [] => listStarts [] sub
  | _ :: rest => listStarts l sub || listContainsSub rest sub

/-- Python `sub in s` on `String`s. -/
def strContains (s sub : String) : Bool := listContainsSub s.data sub.data

/-! ## Python `int()` for ASCII decimal literals

`int(s)` strips whitespace, allows one optional sign, then requires a
non-empty digit sequence in which single underscores may appear between
digits. -/

/-- State after having just consumed a digit: the remainder of a valid
digit-with-underscore group. -/
def digitsUnd : List Char → Bool
  | [] => true
  | c :: rest =>
    if isPyDigit c then digitsUnd rest
    else if c = '_' then
      match rest with
      | [] => false
      | d :: rest2 => isPyDigit d && digitsUnd rest2
    else false

/-- A valid unsigned digit group for Python `int()`: non-empty, starts with a
digit, single underscores only between digits. -/
def groupOk : List Char → Bool
  | [] => false
  | c :: rest => isPyDigit c && digitsUnd rest

/-- Numeric value of a digit group, ignoring underscores. -/
def digitsVal (cs : List Char) : Nat :=
  cs.foldl (fun a c => if c = '_' then a else a * 10 + (c.toNat - 48)) 0

/-- Python `int(s)` on a character list (ASCII decimal literals). -/
def pyIntList (cs : List Char) : Option Int :=
  match pyStripList cs with
  | [] => none
  | c :: rest =>
    if c = '+' then
      if groupOk rest then some ((digitsVal rest : Nat) : Int) else none
    else if c = '-' then
      if groupOk rest then some (-((digitsVal rest : Nat) : Int)) else none
    else if groupOk (c :: rest) then some ((digitsVal (c :: rest) : Nat) : Int)
    else none

/-- Python `int(s)`, returning `none` where Python raises `ValueError`. -/
def pyInt (s : String) : Option Int := pyIntList s.data

/-! ## Decimal rendering of naturals and integers

The repository renders numbers into reports with Python's default decimal
formatting; for integers this is plain base-10 rendering, modelled here
explicitly so that parse/render round trips can be proved. -/

/-- The ASCII digit character for `d < 10` (clamped at `'9'`). -/
def digitChar (d : Nat) : Char :=
  match d with
  | 0 => '0' | 1 => '1' | 2 => '2' | 3 => '3' | 4 => '4'
  | 5 => '5' | 6 => '6' | 7 => '7' | 8 => '8' | _ => '9'

/-- Base-10 digit list of a natural number (most significant first). -/
def natDigits (n : Nat) : List Char :=
  if h : n < 10 then [digitChar n]
  else natDigits (n / 10) ++ [digitChar (n % 10)]
termination_by n
decreasing_by exact Nat.div_lt_self (by omega) (by omega)

/-- Decimal rendering of a natural number (Python `str(n)` for `n ≥ 0`). -/
def showNat (n : Nat) : String := ⟨natDigits n⟩

/-- Decimal rendering of an integer (Python `str(n)`). -/
def showInt (n : Int) : String :=
  if n < 0 then ⟨'-' :: natDigits n.natAbs⟩ else showNat n.natAbs

/-! ### Round-trip lemmas for decimal rendering -/

theorem digitChar_isPyDigit {d : Nat} (h : d < 10) :
    isPyDigit (digitChar d) = true := by
  interval_cases d <;> decide

theorem digitChar_toNat {d : Nat} (h : d < 10) :
    (digitChar d).toNat = 48 + d := by
  interval_cases d <;> decide

theorem natDigits_all_digits (n : Nat) :
    ∀ c ∈ natDigits n, isPyDigit c = true := by
  induction n using Nat.strong_induction_on with
  | _ n ih =>
    intro c hc
    rw [natDigits] at hc
    by_cases h : n < 10
    · simp only [h, dite_true, List.mem_singleton] at hc
      subst hc; exact digitChar_isPyDigit h
    · simp only [h, dite_false, List.mem_append, List.mem_singleton] at hc
      rcases hc with hc | hc
      · exact ih (n / 10) (Nat.div_lt_self (by omega) (by omega)) c hc
      · subst hc; exact digitChar_isPyDigit (Nat.mod_lt _ (by omega))

theorem natDigits_ne_nil (n : Nat) : natDigits n ≠ [] := by
  rw [natDigits]
  by_cases h : n < 10 <;> simp [h]

theorem digitsVal_append_digit (cs : List Char) {d : Nat} (h : d < 10) :
    digitsVal (cs ++ [digitChar d]) = digitsVal cs * 10 + d := by
  unfold digitsVal
  rw [List.foldl_append]
  have h1 : digitChar d ≠ '_' := by interval_cases d <;> decide
  simp [h1, digitChar_toNat h]

theorem digitsVal_natDigits (n : Nat) : digitsVal (natDigits n) = n := by
  induction n using Nat.strong_induction_on with
  | _ n ih =>
    rw [natDigits]
    by_cases h : n < 10
    · simp only [h, dite_true]
      unfold digitsVal
      have h1 : digitChar n ≠ '_' := by interval_cases n <;> decide
      simp [h1, digitChar_toNat h]
    · simp only [h, dite_false]
      rw [digitsVal_append_digit _ (Nat.mod_lt _ (by omega)),
        ih (n / 10) (Nat.div_lt_self (by omega) (by omega))]
      omega

theorem digitsUnd_of_all_digits {cs : List Char}
    (h : ∀ c ∈ cs, isPyDigit c = true) : digitsUnd cs = true := by
  induction cs with
  | nil => rfl
  | cons c rest ih =>
    unfold digitsUnd
    rw [h c (List.mem_cons_self _ _)]
    simp only [if_true]
    exact ih (fun c hc => h c (List.mem_cons_of_mem _ hc))

theorem groupOk_of_all_digits {cs : List Char} (hne : cs ≠ [])
    (h : ∀ c ∈ cs, isPyDigit c = true) : groupOk cs = true := by
  cases cs with
  | nil => exact absurd rfl hne
  | cons c rest =>
    show (isPyDigit c && digitsUnd rest) = true
    rw [h c (List.mem_cons_self _ _),
      digitsUnd_of_all_digits (fun c hc => h c (List.mem_cons_of_mem _ hc))]
    rfl

theorem not_isPySpace_of_isPyDigit {c : Char} (h : isPyDigit c = true) :
    isPySpace c = false := by
  unfold isPyDigit at h
  unfold isPySpace
  simp only [Bool.and_eq_true, decide_eq_true_eq] at h
  simp only [Bool.or_eq_false_iff, decide_eq_false_iff_not]
  omega

theorem pyStripList_of_all_digits {cs : List Char}
    (h : ∀ c ∈ cs, isPyDigit c = true) : pyStripList cs = cs := by
  unfold pyStripList
  have h1 : cs.dropWhile isPySpace = cs := by
    cases cs with
    | nil => rfl
    | cons c rest =>
      rw [List.dropWhile_cons,
        not_isPySpace_of_isPyDigit (h c (List.mem_cons_self _ _))]
      simp
  rw [h1]
  have h2 : cs.reverse.dropWhile isPySpace = cs.reverse := by
    cases hr : cs.reverse with
    | nil => rfl
    | cons c rest =>
      rw [List.dropWhile_cons]
      have hc : c ∈ cs := by
        rw [← List.mem_reverse, hr]; exact List.mem_cons_self _ _
      rw [not_isPySpace_of_isPyDigit (h c hc)]
      simp
  rw [h2, List.reverse_reverse]

/-- Parsing the decimal rendering of a natural number recovers it. -/
theorem pyInt_showNat (n : Nat) : pyInt (showNat n) = some (n : Int) := by
  unfold pyInt showNat pyIntList
  simp only
  rw [pyStripList_of_all_digits (natDigits_all_digits n)]
  cases hd : natDigits n with
  | nil => exact absurd hd (natDigits_ne_nil n)
  | cons c rest =>
    have hc : isPyDigit c = true := by
      apply natDigits_all_digits n
      rw [hd]; exact List.mem_cons_self _ _
    have hplus : c ≠ '+' := by
      intro hEq; rw [hEq] at hc; exact absurd hc (by decide)
    have hminus : c ≠ '-' := by
      intro hEq; rw [hEq] at hc; exact absurd hc (by decide)
    have hgo : groupOk (c :: rest) = true := by
      rw [← hd]
      exact groupOk_of_all_digits (natDigits_ne_nil n) (natDigits_all_digits n)
    simp only [hplus, hminus, if_false, hgo, if_true]
    rw [← hd, digitsVal_natDigits]

/-! ## Version comparator (`parse_semantic_version`, `compare_versions`) -/

/-- `version_string.lstrip("v")`: removes *all* leading `'v'` characters. -/
def lstripV (cs : List Char) : List Char := cs.dropWhile (fun c => c = 'v')

/-- Embedding of `parse_semantic_version`: strip leading `'v'`s, split on
`'.'`, require exactly 3 parts, convert each with `int(...)`, reject negative
components; every failure (including a `ValueError` from `int`) yields
`none`. -/
def parse_semantic_version (s : String) : Option (Int × Int × Int) :=
  match pySplit '.' (lstripV s.data) with
  | [p1, p2, p3] =>
    match pyIntList p1, pyIntList p2, pyIntList p3 with
    | some major, some minor, some patch =>
      if major < 0 ∨ minor < 0 ∨ patch < 0 then none
      else some (major, minor, patch)
    | _, _, _ => none
  | _ => none

/-- Python tuple `<` on integer triples: lexicographic comparison. -/
def tupLt (a b : Int × Int × Int) : Bool :=
  a.1 < b.1 ||
    (a.1 = b.1 && (a.2.1 < b.2.1 || (a.2.1 = b.2.1 && a.2.2 < b.2.2)))

/-- Embedding of `compare_versions`: `-1`/`0`/`1` by tuple comparison. -/
def compare_versions (current latest : Int × Int × Int) : Int :=
  if tupLt current latest then -1
  else if current = latest then 0
  else 1

/-- Modelled from the spec: rendering a valid `Version` back to the string
`"major.minor.patch"`.  The source has no version renderer; the spec's
round-trip property (`parse(string(v)) == v`) fixes this decimal format. -/
def renderVersion (v : Nat × Nat × Nat) : String :=
  ⟨natDigits v.1 ++ ('.' :: (natDigits v.2.1 ++ ('.' :: natDigits v.2.2)))⟩

/-! ### Splitting lemmas for the round trip -/

theorem pySplit_no_sep {sep : Char} {xs : List Char}
    (h : ∀ c ∈ xs, c ≠ sep) : pySplit sep xs = [xs] := by
  induction xs with
  | nil => rfl
  | cons c rest ih =>
    have hrest := ih (fun c hc => h c (List.mem_cons_of_mem _ hc))
    simp only [pySplit, if_neg (h c (List.mem_cons_self _ _)), hrest]

theorem pySplit_append_sep {sep : Char} {xs ys : List Char}
    (h : ∀ c ∈ xs, c ≠ sep) :
    pySplit sep (xs ++ sep :: ys) = xs :: pySplit sep ys := by
  induction xs with
  | nil =>
    simp [pySplit]
  | cons c rest ih =>
    have hrest := ih (fun c hc => h c (List.mem_cons_of_mem _ hc))
    simp only [List.cons_append, pySplit,
      if_neg (h c (List.mem_cons_self _ _))]
    rw [show rest.append (sep :: ys) = rest ++ sep :: ys from rfl, hrest]

theorem natDigits_no_dot (n : Nat) : ∀ c ∈ natDigits n, c ≠ '.' := by
  intro c hc hEq
  have hd := natDigits_all_digits n c hc
  rw [hEq] at hd
  exact absurd hd (by decide)

theorem lstripV_natDigits_head (n : Nat) (ys : List Char) :
    lstripV (natDigits n ++ ys) = natDigits n ++ ys := by
  unfold lstripV
  cases hd : natDigits n with
  | nil => exact absurd hd (natDigits_ne_nil n)
  | cons c rest =>
    have hc : isPyDigit c = true := by
      apply natDigits_all_digits n
      rw [hd]; exact List.mem_cons_self _ _
    have hv : ¬(c = 'v') := by
      intro hEq; rw [hEq] at hc; exact absurd hc (by decide)
    simp [List.dropWhile_cons, hv]

theorem pyIntList_natDigits (n : Nat) : pyIntList (natDigits n) = some (n : Int) :=
  pyInt_showNat n

/-- Parsing the rendering of any version triple recovers it. -/
theorem parse_renderVersion (v : Nat × Nat × Nat) :
    parse_semantic_version (renderVersion v) =
      some ((v.1 : Int), (v.2.1 : Int), (v.2.2 : Int)) := by
  obtain ⟨a, b, c⟩ := v
  unfold parse_semantic_version renderVersion
  simp only
  rw [lstripV_natDigits_head]
  rw [pySplit_append_sep (natDigits_no_dot a)]
  rw [pySplit_append_sep (natDigits_no_dot b)]
  rw [pySplit_no_sep (natDigits_no_dot c)]
  simp only [pyIntList_natDigits]
  rw [if_neg]
  push_neg
  refine ⟨?_, ?_, ?_⟩ <;> exact Int.ofNat_nonneg _

/-! ## Python exceptions and `float()` parsing -/

/-- The Python exceptions that the modelled code paths can raise. -/
inductive PyExn where
  | valueError (msg : String)
  | zeroDivisionError
  | indexError
  | osError (msg : String)
deriving Repr, DecidableEq

/-- `str(e)` for the modelled exceptions. -/
def pyExnStr : PyExn → String
  | .valueError m => m
  | .zeroDivisionError => "division by zero"
  | .indexError => "list index out of range"
  | .osError m => m

/-- Split a character list at the first character satisfying `p`; the second
component is `none` when no such character occurs. -/
def splitAtFirst (p : Char → Bool) : List Char → List Char × Option (List Char)
  | [] => ([], none)
  | c :: rest =>
    if p c then ([], some rest)
    else
      match splitAtFirst p rest with
      | (pre, post) => (c :: pre, post)

/-- An optionally-empty digit group (used for the parts around the decimal
point of a float literal). -/
def optGroup (cs : List Char) : Bool := cs.isEmpty || groupOk cs

/-- Exponent part of a Python float literal: optional sign then digits. -/
def parseExpPart (cs : List Char) : Option Int :=
  match cs with
  | [] => none
  | c :: rest =>
    if c = '+' then if groupOk rest then some ((digitsVal rest : Nat) : Int) else none
    else if c = '-' then
      if groupOk rest then some (-((digitsVal rest : Nat) : Int)) else none
    else if groupOk (c :: rest) then some ((digitsVal (c :: rest) : Nat) : Int)
    else none

/-- The syntactic components of a Python float literal: sign, integer-part
value, fraction-part value, number of fraction digits, exponent.  Separated
from the `ℚ` valuation so that parsing stays kernel-computable. -/
structure FloatParts where
  neg : Bool
  ipart : Nat
  fpart : Nat
  flen : Nat
  ex : Int
deriving Repr, DecidableEq

/-- Unsigned mantissa (with optional exponent) of a Python float literal. -/
def parseUnsignedFloat (sgn : Bool) (cs : List Char) : Option FloatParts :=
  let (mant, expPart) := splitAtFirst (fun c => c = 'e' || c = 'E') cs
  let expVal : Option Int :=
    match expPart with
    | none => some 0
    | some e => parseExpPart e
  match expVal with
  | none => none
  | some ex =>
    let (ipart, fpartOpt) := splitAtFirst (fun c => c = '.') mant
    match fpartOpt with
    | none =>
      if groupOk ipart then some ⟨sgn, digitsVal ipart, 0, 0, ex⟩ else none
    | some fpart =>
      if optGroup ipart && optGroup fpart && !(ipart.isEmpty && fpart.isEmpty)
      then
        some ⟨sgn, digitsVal ipart, digitsVal fpart,
          (fpart.filter isPyDigit).length, ex⟩
      else none

/-- Syntactic parse of a Python float literal. -/
def pyFloatParts (cs : List Char) : Option FloatParts :=
  match pyStripList cs with
  | [] => none
  | c :: rest =>
    if c = '+' then parseUnsignedFloat false rest
    else if c = '-' then parseUnsignedFloat true rest
    else parseUnsignedFloat false (c :: rest)

/-- Exact rational value of parsed float components. -/
def ratOfParts (p : FloatParts) : ℚ :=
  (if p.neg then -1 else 1) *
    (((p.ipart : ℚ) + (p.fpart : ℚ) / (10 : ℚ) ^ p.flen) * (10 : ℚ) ^ p.ex)

/-- Python `float(s)` for finite ASCII decimal literals, idealised to exact
rationals (`inf`/`nan` spellings are not modelled; no claim touches them). -/
def pyFloatList (cs : List Char) : Option ℚ :=
  (pyFloatParts cs).map ratOfParts

/-- Python `float(s)` on `String`s. -/
def pyFloat (s : String) : Option ℚ := pyFloatList s.data

/-! ## Issue data model (`add_issue` and the global `issues` list) -/

/-- The severity names used throughout the program, in the order the text and
Markdown exporters display them. -/
def SEVERITIES : List String := ["CRITICAL", "HIGH", "MEDIUM", "LOW", "INFO"]

/-- One classified finding, as built by `add_issue`. -/
structure Issue where
  severity : String
  category : String
  description : String
  details : Option String
  timestamp : String
deriving Repr, DecidableEq

/-- `add_issue`: append one issue to the (explicitly passed) global list.
`timestamp` stands for `datetime.now().isoformat()`. -/
def add_issue (store : List Issue) (severity category description : String)
    (details : Option String) (timestamp : String) : List Issue :=
  store ++ [⟨severity, category, description, details, timestamp⟩]

/-! ## Check units

Each check is modelled as a function from its probe inputs to the list of
issues it appends (via `add_issue`) to the global store; the runner model
threads the store.  Numeric *formatting* of floats inside description strings
(`f"{x:.2f}"` and `repr`) is abstracted as a parameter `fmt : ℚ → String`
because binary-float rendering is outside the embedding; no claim depends on
those rendered digits.  A check whose body can raise an uncaught exception
returns `Except PyExn`. -/

/-- Embedding of `check_load_average`.  `loadavgRead` is the result of reading
`/proc/loadavg` (the whole body sits in `try/except Exception`, so every
failure — read error, missing fields, bad floats — degrades to one LOW
issue). `cpuCountOS` is `os.cpu_count()`; `or 1` replaces `None`/`0`. -/
def check_load_average (warnMul critMul : ℚ) (cpuCountOS : Option Nat)
    (fmt : ℚ → String) (now : String)
    (loadavgRead : Except PyExn String) : List Issue :=
  match loadavgRead with
  | .error e =>
    add_issue [] "LOW" "System Health" "Cannot check load average"
      (some (pyExnStr e)) now
  | .ok content =>
    match pySplitWs (pyStripList content.data) with
    | p0 :: p1 :: p2 :: _ =>
      match pyFloatList p0, pyFloatList p1, pyFloatList p2 with
      | some load1, some load5, some load15 =>
        let cpuCount : Nat :=
          match cpuCountOS with
          | none => 1
          | some n => if n = 0 then 1 else n
        let loadPerCpu : ℚ := load1 / (cpuCount : ℚ)
        let det : String := "CPU count: " ++ showNat cpuCount ++
          ", 1/5/15 min: " ++ fmt load1 ++ "/" ++ fmt load5 ++ "/" ++ fmt load15
        if loadPerCpu > critMul then
          add_issue [] "CRITICAL" "System Health"
            ("Load average critically high: " ++ fmt load1 ++ " (" ++
              fmt loadPerCpu ++ " per CPU)") (some det) now
        else if loadPerCpu > warnMul then
          add_issue [] "HIGH" "System Health"
            ("Load average high: " ++ fmt load1 ++ " (" ++
              fmt loadPerCpu ++ " per CPU)") (some det) now
        else
          add_issue [] "INFO" "System Health"
            ("Load average normal: " ++ fmt load1 ++ " (" ++
              fmt loadPerCpu ++ " per CPU)") (some det) now
      | _, _, _ =>
        add_issue [] "LOW" "System Health" "Cannot check load average"
          (some (pyExnStr (.valueError "could not convert string to float"))) now
    | _ =>
      add_issue [] "LOW" "System Health" "Cannot check load average"
        (some (pyExnStr .indexError)) now

/-- The classification-and-report block of `check_memory_usage`, reached once
`total` and `used` have been parsed and `total ≠ 0`: the `if/elif/else` chain
on `percent = used/total*100` with strict `>` at both thresholds. -/
def memoryIssue (warnT critT : Int) (fmt : ℚ → String) (now : String)
    (total used : Int) : List Issue :=
  let percent : ℚ := ((used : ℚ) / (total : ℚ)) * 100
  if percent > (critT : ℚ) then
    add_issue [] "CRITICAL" "System Health"
      ("Memory usage critically high: " ++ fmt percent ++ "% (" ++
        showInt used ++ "MB/" ++ showInt total ++ "MB)")
      (some "Consider adding more RAM or reducing memory usage") now
  else if percent > (warnT : ℚ) then
    add_issue [] "HIGH" "System Health"
      ("Memory usage high: " ++ fmt percent ++ "% (" ++ showInt used ++
        "MB/" ++ showInt total ++ "MB)") none now
  else
    add_issue [] "INFO" "System Health"
      ("Memory usage normal: " ++ fmt percent ++ "% (" ++ showInt used ++
        "MB/" ++ showInt total ++ "MB)") none now

/-- Embedding of `check_memory_usage`.  The body has no `try/except`: a
non-numeric field makes `int(...)` raise `ValueError` and `total == 0` makes
the division raise `ZeroDivisionError`; both escape the check
(`Except.error`).  Structural shortfalls (fewer than 2 lines / 3 fields, or
`rc ≠ 0`) fall through to the final LOW issue. -/
def check_memory_usage (warnT critT : Int) (fmt : ℚ → String) (now : String)
    (rc : Int) (stdout : String) : Except PyExn (List Issue) :=
  let fallback : Except PyExn (List Issue) :=
    .ok (add_issue [] "LOW" "System Health" "Cannot check memory usage"
      (some "free command failed") now)
  if rc = 0 then
    match pySplit '\n' stdout.data with
    | _ :: memLineRaw :: _ =>
      match pySplitWs memLineRaw with
      | _ :: totalS :: usedS :: _ =>
        match pyIntList totalS with
        | none => .error (.valueError "invalid literal for int() with base 10")
        | some total =>
          match pyIntList usedS with
          | none => .error (.valueError "invalid literal for int() with base 10")
          | some used =>
            if total = 0 then .error .zeroDivisionError
            else .ok (memoryIssue warnT critT fmt now total used)
      | _ => fallback
    | _ => fallback
  else fallback

/-- The pseudo-filesystem names that `check_filesystem_usage` always skips. -/
def dfPseudo : List String := ["tmpfs", "devtmpfs", "none", "udev"]

/-- `parts[4].rstrip("%")`: remove all trailing `'%'` characters. -/
def rstripPercent (cs : List Char) : List Char :=
  (cs.reverse.dropWhile (fun c => c = '%')).reverse

/-- The per-row block of `check_filesystem_usage`: given the
whitespace-split fields of one `df -h` row, the issues it appends.  Rows with
fewer than 6 fields, pseudo-filesystems, unparsable percentages
(`ValueError` → `continue`), and usage below every tier yield nothing. -/
def dfRowIssues (warnT critT : Int) (now : String)
    (parts : List (List Char)) : List Issue :=
  match parts with
  | fsRaw :: _ :: _ :: _ :: pctRaw :: mountRaw :: _ =>
    let filesystem : String := ⟨fsRaw⟩
    let mountpoint : String := ⟨mountRaw⟩
    if dfPseudo.contains filesystem then []
    else
      match pyIntList (rstripPercent pctRaw) with
      | none => []
      | some usePercent =>
        let det : String := filesystem ++ " mounted at " ++ mountpoint
        if usePercent ≥ critT then
          add_issue [] "CRITICAL" "Storage"
            ("Filesystem " ++ mountpoint ++ " critically full: " ++
              showInt usePercent ++ "%") (some det) now
        else if usePercent ≥ warnT then
          add_issue [] "HIGH" "Storage"
            ("Filesystem " ++ mountpoint ++ " filling up: " ++
              showInt usePercent ++ "%") (some det) now
        else if usePercent ≥ 75 then
          add_issue [] "MEDIUM" "Storage"
            ("Filesystem " ++ mountpoint ++ " at " ++ showInt usePercent ++ "%")
            (some det) now
        else []
  | _ => []

/-- One `df -h` output line: blank lines are skipped, others are
whitespace-split and handled by `dfRowIssues`. -/
def dfLineIssues (warnT critT : Int) (now : String) (line : List Char) :
    List Issue :=
  if (pyStripList line).isEmpty then []
  else dfRowIssues warnT critT now (pySplitWs line)

/-- Embedding of `check_filesystem_usage`: on success drop the `df` header
line and process each row; on failure one LOW issue. -/
def check_filesystem_usage (warnT critT : Int) (now : String) (rc : Int)
    (stdout : String) : List Issue :=
  if rc = 0 then
    ((pySplit '\n' stdout.data).drop 1).foldl
      (fun acc line => acc ++ dfLineIssues warnT critT now line) []
  else
    add_issue [] "LOW" "Storage" "Cannot check filesystem usage"
      (some "df command failed") now

/-! ## SSH posture check (`check_ssh_status`) -/

/-- `re.search(r"^\s*<lit>", line)`: optional leading whitespace then the
literal (the literals used start with a non-whitespace character, so the
greedy `\s*` consumes exactly the leading whitespace run). -/
def matchesDirective (lit : List Char) (line : List Char) : Bool :=
  listStarts (line.dropWhile isPySpace) lit

/-- `re.search(r"^\s*HostKey\s+", line)`: the literal must be followed by at
least one whitespace character. -/
def matchesHostKey (line : List Char) : Bool :=
  let t := line.dropWhile isPySpace
  listStarts t "HostKey".data &&
    (match t.drop 7 with
     | c :: _ => isPySpace c
     | [] => false)

/-- `re.search(r"^\s*PubkeyAccepted(KeyTypes|Algorithms)", line)`. -/
def matchesPubkeyAccepted (line : List Char) : Bool :=
  let t := line.dropWhile isPySpace
  listStarts t "PubkeyAcceptedKeyTypes".data ||
    listStarts t "PubkeyAcceptedAlgorithms".data

/-- `line.strip().startswith("#")`. -/
def isCommentLine (line : List Char) : Bool :=
  listStarts (pyStripList line) ['#']

/-- The `for line in reversed(lines): if not comment: (disable if "no" in
line.lower()); break` loop, applied to the already-reversed line list;
defaults to enabled. -/
def reversedLoopEnabled : List (List Char) → Bool
  | [] => true
  | l :: rest =>
    if isCommentLine l then reversedLoopEnabled rest
    else !(listContainsSub (l.map pyLowerChar) "no".data)

/-- Effective `PasswordAuthentication` decision of `check_ssh_status`. -/
def password_auth_enabled (content : String) : Bool :=
  reversedLoopEnabled
    (((pySplit '\n' content.data).filter
      (matchesDirective "PasswordAuthentication".data)).reverse)

/-- Effective `PubkeyAuthentication` decision of `check_ssh_status`. -/
def pubkey_auth_enabled (content : String) : Bool :=
  reversedLoopEnabled
    (((pySplit '\n' content.data).filter
      (matchesDirective "PubkeyAuthentication".data)).reverse)

/-- The key-algorithm inspection of `check_ssh_status`, reached only when
password authentication is disabled and pubkey authentication enabled.
`authKeys` holds the contents of the readable `authorized_keys` files. -/
def sshKeyInspection (content : String) (authKeys : List String)
    (now : String) : List Issue :=
  let lines := pySplit '\n' content.data
  let lowerHas : List Char → String → Bool := fun l sub =>
    listContainsSub (l.map pyLowerChar) sub.data
  let hostkeyLines := lines.filter matchesHostKey
  let weakKeysFound : List String :=
    (hostkeyLines.filter (fun l =>
      !isCommentLine l && (lowerHas l "rsa" || lowerHas l "dsa"))).map
        (fun l => (⟨pyStripList l⟩ : String))
  let strongKeysFound : List String :=
    (hostkeyLines.filter (fun l =>
      !isCommentLine l && !(lowerHas l "rsa" || lowerHas l "dsa") &&
        (lowerHas l "ed25519" || lowerHas l "ecdsa"))).map
          (fun l => (⟨pyStripList l⟩ : String))
  let acceptedLines := lines.filter matchesPubkeyAccepted
  let weakAlgoAllowed := acceptedLines.any (fun l =>
    !isCommentLine l && (lowerHas l "rsa" || lowerHas l "dsa"))
  let rsaKeysInUse := authKeys.any (fun c =>
    strContains c "ssh-rsa" || strContains c "ssh-dss")
  let ed25519KeysInUse := authKeys.any (fun c => strContains c "ssh-ed25519")
  if rsaKeysInUse || !weakKeysFound.isEmpty || weakAlgoAllowed then
    add_issue [] "MEDIUM" "Security"
      "SSH is using weak key algorithms (RSA or older)"
      (some ("SSH accepts RSA/DSA keys. Upgrade to ed25519 keys. Weak keys: " ++
        (if !weakKeysFound.isEmpty then String.intercalate ", " weakKeysFound
         else "RSA keys in authorized_keys"))) now
  else if ed25519KeysInUse || !strongKeysFound.isEmpty then
    add_issue [] "LOW" "Security"
      "SSH is running with strong key-based authentication"
      (some "SSH uses ed25519 or ECDSA keys - acceptable configuration") now
  else
    add_issue [] "LOW" "Security" "SSH is running with pubkey authentication"
      (some "Password auth disabled, but cannot verify key types. Ensure ed25519 keys are used.")
      now

/-- The body of `check_ssh_status` once `sshd_config` has been read. -/
def check_ssh_config (content : String) (authKeys : List String)
    (now : String) : List Issue :=
  if password_auth_enabled content then
    add_issue [] "HIGH" "Security"
      "SSH is running with password authentication enabled"
      (some "Password authentication should be disabled. Use key-based authentication with ed25519 or better")
      now
  else if pubkey_auth_enabled content then sshKeyInspection content authKeys now
  else
    add_issue [] "HIGH" "Security"
      "SSH is running but all authentication methods disabled"
      (some "Both password and pubkey authentication are disabled") now

/-- Embedding of `check_ssh_status`.  `systemctlRc`/`systemctlOut` come from
`systemctl is-active sshd`; `configRead = none` models the caught
`PermissionError` when opening `sshd_config`. -/
def check_ssh_status (systemctlRc : Int) (systemctlOut : String)
    (configExists : Bool) (configRead : Option String)
    (authKeys : List String) (now : String) : List Issue :=
  if systemctlRc ≠ 0 || !(strContains (pyLower systemctlOut) "active") then
    add_issue [] "INFO" "Security" "SSH service is not running"
      (some "Good: SSH is disabled") now
  else if !configExists then
    add_issue [] "MEDIUM" "Security" "SSH is running but sshd_config not found"
      (some "Cannot verify SSH authentication settings") now
  else
    match configRead with
    | none =>
      add_issue [] "MEDIUM" "Security"
        "SSH is running but cannot read sshd_config"
        (some "Permission denied - run as root to verify SSH configuration") now
    | some content => check_ssh_config content authKeys now

/-- Spec-side view: the last non-comment line of `content` matching the
directive `lit` (later directives override earlier ones). -/
def lastNonCommentDirective (lit : List Char) (content : String) :
    Option (List Char) :=
  ((pySplit '\n' content.data).filter
    (fun l => matchesDirective lit l && !isCommentLine l)).getLast?

/-! ## Configuration resolver (`_cfg`) -/

/-- The `value_type` argument of `_cfg`. -/
inductive CfgType where
  | tStr | tInt | tFloat | tBool
deriving Repr, DecidableEq

/-- A resolved configuration value. -/
inductive CfgVal where
  | vStr (s : String)
  | vInt (n : Int)
  | vFloat (q : ℚ)
  | vBool (b : Bool)
deriving Repr, DecidableEq

/-- Coercion of an environment-variable string in `_cfg`: booleans are total
(`lower() in ("true","1","yes","on")`), `int`/`float` fail on malformed
input, strings are returned as-is. -/
def coerceEnv (t : CfgType) (v : String) : Option CfgVal :=
  match t with
  | .tBool =>
    some (.vBool ((["true", "1", "yes", "on"] : List String).contains (pyLower v)))
  | .tInt => (pyInt v).map .vInt
  | .tFloat => (pyFloat v).map .vFloat
  | .tStr => some (.vStr v)

/-- `configparser.getboolean` states: `{1,yes,true,on}` / `{0,no,false,off}`
case-insensitively; anything else raises (→ `none`). -/
def getbooleanStates (v : String) : Option Bool :=
  if (["1", "yes", "true", "on"] : List String).contains (pyLower v) then
    some true
  else if (["0", "no", "false", "off"] : List String).contains (pyLower v) then
    some false
  else none

/-- Coercion of a config-file string in `_cfg` (`getboolean`/`getint`/
`getfloat`/`get`). -/
def coerceFile (t : CfgType) (v : String) : Option CfgVal :=
  match t with
  | .tBool => (getbooleanStates v).map .vBool
  | .tInt => (pyInt v).map .vInt
  | .tFloat => (pyFloat v).map .vFloat
  | .tStr => some (.vStr v)

/-- Embedding of `_cfg`: environment variable named `key.upper()` first (a
coercion failure falls through), then the config file when one was loaded and
has the option (a coercion failure falls through), then the default. -/
def cfgResolve (env : String → Option String) (hasConfig : Bool)
    (fileCfg : String → String → Option String) (sect key : String)
    (default : CfgVal) (t : CfgType) : CfgVal :=
  let fileLayer : CfgVal :=
    match (if hasConfig then fileCfg sect key else none) with
    | some fv =>
      match coerceFile t fv with
      | some v => v
      | none => default
    | none => default
  match env (pyUpper key) with
  | some ev =>
    match coerceEnv t ev with
    | some v => v
    | none => fileLayer
  | none => fileLayer

/-! ## Report exporters

All four exporters compute the same aggregates from the issue list:
`severity_counts` (a Python dict built by `get(sev, 0) + 1`, so insertion
ordered with no zero-filled entries), `len(issues)`, and the category
grouping iterated in `sorted(keys)` order.  Each exporter is modelled as the
structured content it serialises; the surrounding string/XML assembly is
injective formatting of these fields. -/

/-- `severity_counts[sev] = severity_counts.get(sev, 0) + 1` on an
insertion-ordered association list. -/
def dictIncr : List (String × Nat) → String → List (String × Nat)
  | [], s => [(s, 1)]
  | (k, v) :: rest, s =>
    if k = s then (k, v + 1) :: rest else (k, v) :: dictIncr rest s

/-- The `severity_counts` dict each exporter builds by iterating the store. -/
def severityCounts (issues : List Issue) : List (String × Nat) :=
  issues.foldl (fun d i => dictIncr d i.severity) []

/-- `d.get(s, 0)`. -/
def dictGet : List (String × Nat) → String → Nat
  | [], _ => 0
  | (k, v) :: rest, s => if k = s then v else dictGet rest s

/-- `categories.setdefault`-style grouping step: append the issue to its
category's list, creating the category at the end on first sight. -/
def catUpdate : List (String × List Issue) → Issue → List (String × List Issue)
  | [], i => [(i.category, [i])]
  | (k, is) :: rest, i =>
    if k = i.category then (k, is ++ [i]) :: rest
    else (k, is) :: catUpdate rest i

/-- The `categories` dict built by iterating the store. -/
def categoriesOf (issues : List Issue) : List (String × List Issue) :=
  issues.foldl catUpdate []

/-- Insertion step for sorting category groups by name. -/
def insertSortedCat (x : String × List Issue) :
    List (String × List Issue) → List (String × List Issue)
  | [] => [x]
  | y :: ys => if x.1 ≤ y.1 then x :: y :: ys else y :: insertSortedCat x ys

/-- `sorted(categories.keys())` iteration order (keys are distinct, so plain
insertion sort matches Python's stable sort). -/
def sortCats : List (String × List Issue) → List (String × List Issue)
  | [] => []
  | x :: xs => insertSortedCat x (sortCats xs)

/-- Content of `export_markdown`: metadata, the five-row zero-filled severity
summary in `SEVERITIES` order, the total, and category sections. -/
structure MarkdownReport where
  hostname : String
  date : String
  osLine : String
  summaryRows : List (String × Nat)
  totalIssues : Nat
  sections : List (String × List Issue)
deriving Repr, DecidableEq

/-- Embedding of `export_markdown`. -/
def export_markdown (hostname date osLine : String) (issues : List Issue) :
    MarkdownReport :=
  { hostname := hostname, date := date, osLine := osLine,
    summaryRows :=
      SEVERITIES.map (fun sev => (sev, dictGet (severityCounts issues) sev)),
    totalIssues := issues.length,
    sections := sortCats (categoriesOf issues) }

/-- Content of `export_text`: same aggregates as Markdown. -/
structure TextReport where
  hostname : String
  date : String
  osLine : String
  summaryRows : List (String × Nat)
  totalIssues : Nat
  sections : List (String × List Issue)
deriving Repr, DecidableEq

/-- Embedding of `export_text`. -/
def export_text (hostname date osLine : String) (issues : List Issue) :
    TextReport :=
  { hostname := hostname, date := date, osLine := osLine,
    summaryRows :=
      SEVERITIES.map (fun sev => (sev, dictGet (severityCounts issues) sev)),
    totalIssues := issues.length,
    sections := sortCats (categoriesOf issues) }

/-- Content of `export_json`: `{hostname, timestamp, os_info, summary,
issues}` with `summary` holding only severities that occurred. -/
structure JsonReport where
  hostname : String
  timestamp : String
  osInfo : List (String × String)
  summary : List (String × Nat)
  issues : List Issue
deriving Repr, DecidableEq

/-- Embedding of `export_json`. -/
def export_json (hostname timestamp : String) (osInfo : List (String × String))
    (issues : List Issue) : JsonReport :=
  { hostname := hostname, timestamp := timestamp, osInfo := osInfo,
    summary := severityCounts issues, issues := issues }

/-- Content of `export_xml`: metadata, one `severity` element per occurred
severity (dict iteration order = insertion order), and the issue elements. -/
structure XmlReport where
  metadata : List (String × String)
  summary : List (String × Nat)
  issues : List Issue
deriving Repr, DecidableEq

/-- Embedding of `export_xml`. -/
def export_xml (hostname timestamp distribution osVersion : String)
    (issues : List Issue) : XmlReport :=
  { metadata := [("hostname", hostname), ("timestamp", timestamp),
      ("distribution", distribution), ("version", osVersion)],
    summary := severityCounts issues, issues := issues }

/-! ## Runner (`main`) and entry guard (`__main__`) -/

/-- One check invocation as `main` sees it: it mutates the global store or
raises. -/
def CheckUnit : Type := List Issue → Except PyExn (List Issue)

/-- `main`'s check sequence: the checks are called one after another with no
surrounding per-check handler, so an exception from any check aborts the
remaining ones. -/
def runChecks : List CheckUnit → List Issue → Except PyExn (List Issue)
  | [], store => .ok store
  | c :: cs, store =>
    match c store with
    | .ok store2 => runChecks cs store2
    | .error e => .error e

/-- `main`'s final exit-code policy: 2 on any CRITICAL, else 1 on any HIGH,
else 0. -/
def exit_code (store : List Issue) : Nat :=
  if dictGet (severityCounts store) "CRITICAL" > 0 then 2
  else if dictGet (severityCounts store) "HIGH" > 0 then 1
  else 0

/-- The `__main__` guard around `main()`: on success the report is written
from the final store and the exit code reflects severity; an exception
escaping the check sequence reaches `except Exception` — exit code 1, no
report (the report is written only after all checks ran). -/
def scriptRun (checks : List CheckUnit) : Option (List Issue) × Nat :=
  match runChecks checks [] with
  | .ok store => (some store, exit_code store)
  | .error _ => (none, 1)

/-- Lift a check that cannot raise into a `CheckUnit` appending its issues. -/
def liftCheck (issues : List Issue) : CheckUnit :=
  fun store => .ok (store ++ issues)

/-- `check_memory_usage` as a unit of `main`'s sequence. -/
def memCheckUnit (warnT critT : Int) (fmt : ℚ → String) (now : String)
    (rc : Int) (stdout : String) : CheckUnit :=
  fun store => (check_memory_usage warnT critT fmt now rc stdout).map
    (fun new => store ++ new)

/-! ## GPG encryption step (`encrypt_file_gpg`) -/

/-- The `[gpg]` settings the script resolves at startup;
`deleteUnencrypted` is `GPG_DELETE_UNENCRYPTED` (read from configuration,
referenced by no operation). -/
structure GpgSettings where
  encrypt : Bool
  recipient : String
  deleteUnencrypted : Bool
deriving Repr, DecidableEq

/-- Embedding of `encrypt_file_gpg`: returns the report path handed on and
whether the plaintext was removed (`os.remove` runs exactly when the `gpg`
invocation returned 0). -/
def encrypt_file_gpg (g : GpgSettings) (gpgExists : Bool) (gpgRc : Int)
    (filePath : String) : String × Bool :=
  if !g.encrypt || g.recipient = "" then (filePath, false)
  else if !gpgExists then (filePath, false)
  else if gpgRc = 0 then (filePath ++ ".gpg", true)
  else (filePath, false)

/-! ## Theorems settling the claims -/

theorem dropWhile_percent_of_digits {l : List Char}
    (h : ∀ c ∈ l, isPyDigit c = true) :
    l.dropWhile (fun c => c = '%') = l := by
  cases l with
  | nil => rfl
  | cons c rest =>
    rw [List.dropWhile_cons]
    have hc : ¬(c = '%') := by
      intro hEq
      have hd := h c (List.mem_cons_self _ _)
      rw [hEq] at hd
      exact absurd hd (by decide)
    simp [hc]

theorem rstripPercent_showNat (u : Nat) :
    rstripPercent ((showNat u).data ++ ['%']) = natDigits u := by
  have hdrop := dropWhile_percent_of_digits
    (fun c hc => natDigits_all_digits u c (List.mem_reverse.mp hc))
  unfold rstripPercent
  rw [show (showNat u).data = natDigits u from rfl, List.reverse_append]
  simp [hdrop]

/-- C1 (amended): after skipping pseudo-filesystems, a parsed usage
percentage `u` is classified `>= critical` → CRITICAL, else `>= warning` →
HIGH, else `>= 75` → MEDIUM, else no issue (so below the warning threshold a
MEDIUM issue is still possible); pseudo-filesystem rows are always skipped;
the entry `(fs=/dev/sda1, use%=97, mount=/)` with `warning=85, critical=98`
yields HIGH. -/
theorem c1_filesystem_tiers :
    (∀ (warnT critT : Int) (now fs a b c mount : String) (u : Nat),
      dfPseudo.contains fs = false →
      (dfRowIssues warnT critT now [fs.data, a.data, b.data, c.data,
        (showNat u).data ++ ['%'], mount.data]).map Issue.severity =
        (if ((u : Nat) : Int) ≥ critT then ["CRITICAL"]
         else if ((u : Nat) : Int) ≥ warnT then ["HIGH"]
         else if ((u : Nat) : Int) ≥ 75 then ["MEDIUM"]
         else [])) ∧
    (∀ (warnT critT : Int) (now : String) (fsD aD bD cD pctD mountD : List Char)
       (rest : List (List Char)),
      dfPseudo.contains (⟨fsD⟩ : String) = true →
      dfRowIssues warnT critT now
        (fsD :: aD :: bD :: cD :: pctD :: mountD :: rest) = []) ∧
    (dfRowIssues 85 98 "t" ["/dev/sda1".data, "10G".data, "8G".data,
      "2G".data, "97%".data, "/".data]).map Issue.severity = ["HIGH"] := by
  refine ⟨?_, ?_, by decide⟩
  · intro warnT critT now fs a b c mount u hfs
    simp only [dfRowIssues]
    rw [show (⟨fs.data⟩ : String) = fs from rfl]
    rw [hfs]
    simp only [Bool.false_eq_true, if_false]
    rw [rstripPercent_showNat, pyIntList_natDigits]
    simp only []
    split_ifs <;> rfl
  · intro warnT critT now fsD aD bD cD pctD mountD rest h
    simp only [dfRowIssues, h, if_true]

/-- C1 counterexample: with `warning=85, critical=98`, the row
`(fs=/dev/sda1, use%=77, mount=/)` has usage strictly below the warning
threshold, yet the check emits a MEDIUM issue — contradicting "`u` below the
warning threshold yields no issue". -/
theorem c1_counterexample :
    ((77 : Int) < 85) ∧
    (dfRowIssues 85 98 "t" ["/dev/sda1".data, "10G".data, "8G".data,
      "2G".data, "77%".data, "/".data]).map Issue.severity = ["MEDIUM"] :=
  ⟨by norm_num, by decide⟩

/-- C1 witness: instantiating the amended tiering at `u = 90`,
`warning = 85`, `critical = 98` yields a HIGH issue. -/
theorem c1_witness :
    (dfRowIssues 85 98 "t" ["/dev/sda1".data, "10G".data, "8G".data,
      "2G".data, (showNat 90).data ++ ['%'], "/".data]).map Issue.severity =
      ["HIGH"] := by
  rw [c1_filesystem_tiers.1 85 98 "t" "/dev/sda1" "10G" "8G" "2G" "/" 90
    (by decide)]
  decide

/-- C2: the code's actual behaviour at the spec's boundary scenario — load
averages `(4.0, 2.0, 1.0)`, `cpu_count = 4`, warning multiplier `0.7`,
critical multiplier `1.0` give per-CPU load exactly `1.0`, and
`check_load_average` emits HIGH (it uses strict `>` against the critical
multiplier), not the CRITICAL that the spec and the repository's example
configuration (`CRITICAL: Triggers when load >= (CPU_COUNT * multiplier)`)
prescribe. -/
theorem c2_load_boundary_eval :
    (4 : ℚ) / 4 = 1 ∧
    (check_load_average (7/10) 1 (some 4) (fun _ => "") "t"
      (.ok "4.0 2.0 1.0 1/100 123")).map Issue.severity = ["HIGH"] := by
  refine ⟨by norm_num, ?_⟩
  have h40 : pyFloatList "4.0".data = some (ratOfParts ⟨false, 4, 0, 1, 0⟩) := by
    rw [pyFloatList, show pyFloatParts "4.0".data = some ⟨false, 4, 0, 1, 0⟩
      from by decide]
    rfl
  have h20 : pyFloatList "2.0".data = some (ratOfParts ⟨false, 2, 0, 1, 0⟩) := by
    rw [pyFloatList, show pyFloatParts "2.0".data = some ⟨false, 2, 0, 1, 0⟩
      from by decide]
    rfl
  have h10 : pyFloatList "1.0".data = some (ratOfParts ⟨false, 1, 0, 1, 0⟩) := by
    rw [pyFloatList, show pyFloatParts "1.0".data = some ⟨false, 1, 0, 1, 0⟩
      from by decide]
    rfl
  have hv40 : ratOfParts ⟨false, 4, 0, 1, 0⟩ = 4 := by norm_num [ratOfParts]
  have hv20 : ratOfParts ⟨false, 2, 0, 1, 0⟩ = 2 := by norm_num [ratOfParts]
  have hv10 : ratOfParts ⟨false, 1, 0, 1, 0⟩ = 1 := by norm_num [ratOfParts]
  rw [check_load_average]
  simp only [show pySplitWs (pyStripList ("4.0 2.0 1.0 1/100 123".data)) =
    ["4.0".data, "2.0".data, "1.0".data, "1/100".data, "123".data] from by
      decide, h40, h20, h10, hv40, hv20, hv10]
  rw [if_neg (by norm_num), if_pos (by norm_num)]
  rfl

/-- C3 (amended): memory classification is a total, non-overlapping function
of the percentage `used/total*100` — exactly one of CRITICAL/HIGH/INFO is
emitted — but both comparisons are strict, so boundaries belong to the *less*
severe tier: a percentage exactly equal to the critical threshold yields
HIGH (when `warning < critical`), not CRITICAL. -/
theorem c3_memory_tiers :
    (∀ (warnT critT : Int) (fmt : ℚ → String) (now : String) (total used : Int),
      (memoryIssue warnT critT fmt now total used).map Issue.severity =
        [if ((used : ℚ) / (total : ℚ)) * 100 > (critT : ℚ) then "CRITICAL"
         else if ((used : ℚ) / (total : ℚ)) * 100 > (warnT : ℚ) then "HIGH"
         else "INFO"]) ∧
    (∀ (warnT critT : Int) (fmt : ℚ → String) (now : String) (total used : Int),
      ((used : ℚ) / (total : ℚ)) * 100 = (critT : ℚ) →
      (warnT : ℚ) < (critT : ℚ) →
      (memoryIssue warnT critT fmt now total used).map Issue.severity =
        ["HIGH"]) := by
  constructor
  · intro warnT critT fmt now total used
    rw [memoryIssue]
    split_ifs <;> rfl
  · intro warnT critT fmt now total used hEq hLt
    rw [memoryIssue]
    rw [if_neg (by rw [hEq]; exact lt_irrefl _), if_pos (by rw [hEq]; exact hLt)]
    rfl

/-- C3 counterexample: `total = 10`, `used = 9`, `warning = 80`,
`critical = 90`: the percentage is exactly the critical threshold, yet the
check emits HIGH — contradicting "`u == critical` is CRITICAL, not HIGH". -/
theorem c3_counterexample :
    ((9 : ℚ) / 10 * 100 = 90) ∧
    (memoryIssue 80 90 (fun _ => "") "t" 10 9).map Issue.severity = ["HIGH"] := by
  refine ⟨by norm_num, ?_⟩
  rw [memoryIssue]
  norm_num
  rfl

/-- C3 witness: the boundary clause of `c3_memory_tiers` applied at
`total = 10`, `used = 9`, `warning = 80`, `critical = 90`. -/
theorem c3_witness :
    (memoryIssue 80 90 (fun _ => "") "t" 10 9).map Issue.severity = ["HIGH"] :=
  c3_memory_tiers.2 80 90 (fun _ => "") "t" 10 9 (by norm_num) (by norm_num)

theorem runChecks_append_error :
    ∀ (cs1 : List CheckUnit) (c : CheckUnit) (cs2 : List CheckUnit)
      (store s2 : List Issue) (e : PyExn),
      runChecks cs1 store = Except.ok s2 → c s2 = Except.error e →
      runChecks (cs1 ++ c :: cs2) store = Except.error e := by
  intro cs1
  induction cs1 with
  | nil =>
    intro c cs2 store s2 e h1 h2
    have hs : store = s2 := by
      simpa [runChecks] using h1
    subst hs
    simp only [List.nil_append, runChecks, h2]
  | cons c0 rest ih =>
    intro c cs2 store s2 e h1 h2
    simp only [List.cons_append, runChecks]
    cases h0 : c0 store with
    | ok store2 =>
      rw [runChecks, h0] at h1
      exact ih c cs2 store2 s2 e h1 h2
    | error e0 =>
      rw [runChecks, h0] at h1
      exact absurd h1 (by simp)

/-- C4 (amended): `main` wraps no per-check handler, so an exception raised
inside a check propagates out of the check sequence: the checks after it do
not run, no report is produced, and only the `__main__` guard catches it,
logging and exiting with code 1. -/
theorem c4_amended :
    (∀ (cs1 : List CheckUnit) (c : CheckUnit) (cs2 : List CheckUnit)
       (store s2 : List Issue) (e : PyExn),
      runChecks cs1 store = Except.ok s2 → c s2 = Except.error e →
      runChecks (cs1 ++ c :: cs2) store = Except.error e) ∧
    (∀ (cs1 : List CheckUnit) (c : CheckUnit) (cs2 : List CheckUnit)
       (s2 : List Issue) (e : PyExn),
      runChecks cs1 [] = Except.ok s2 → c s2 = Except.error e →
      scriptRun (cs1 ++ c :: cs2) = (none, 1)) := by
  refine ⟨runChecks_append_error, ?_⟩
  intro cs1 c cs2 s2 e h1 h2
  rw [scriptRun, runChecks_append_error cs1 c cs2 [] s2 e h1 h2]

/-- C4 counterexample: `check_memory_usage` (a check in the documented run
order, with no internal `try/except`) raises `ValueError` on `free` output
whose second field is not numeric; the run then aborts — the following check
never contributes its issue and no report is produced (exit 1) —
contradicting "no exception from one check prevents subsequent checks or the
report". -/
theorem c4_counterexample :
    runChecks [memCheckUnit 80 90 (fun _ => "") "t" 0 "h\nMem: abc 5",
      liftCheck [⟨"INFO", "Security", "ok", none, "t"⟩]] [] =
      Except.error (PyExn.valueError "invalid literal for int() with base 10") ∧
    scriptRun [memCheckUnit 80 90 (fun _ => "") "t" 0 "h\nMem: abc 5",
      liftCheck [⟨"INFO", "Security", "ok", none, "t"⟩]] = (none, 1) := by
  constructor <;> rfl

/-- C4 witness: the amended propagation theorem applied to the concrete
failing memory check. -/
theorem c4_witness :
    scriptRun [memCheckUnit 80 90 (fun _ => "") "t" 0 "h\nMem: abc 5",
      liftCheck []] = (none, 1) :=
  c4_amended.2 [] (memCheckUnit 80 90 (fun _ => "") "t" 0 "h\nMem: abc 5")
    [liftCheck []] []
    (PyExn.valueError "invalid literal for int() with base 10") rfl rfl

theorem reversedLoopEnabled_head (rs : List (List Char)) :
    reversedLoopEnabled rs =
      (match (rs.filter (fun l => !isCommentLine l)).head? with
       | none => true
       | some l => !(listContainsSub (l.map pyLowerChar) "no".data)) := by
  induction rs with
  | nil => rfl
  | cons l rest ih =>
    simp only [reversedLoopEnabled, List.filter_cons]
    by_cases h : isCommentLine l
    · simp [h, ih]
    · simp [h]

theorem password_auth_enabled_eq_spec (content : String) :
    password_auth_enabled content =
      (match lastNonCommentDirective "PasswordAuthentication".data content with
       | none => true
       | some l => !(listContainsSub (l.map pyLowerChar) "no".data)) := by
  rw [password_auth_enabled, reversedLoopEnabled_head, lastNonCommentDirective]
  rw [List.filter_reverse, List.head?_reverse]
  simp [List.filter_filter, Bool.and_comm]

/-- C5: the effective `PasswordAuthentication` value is taken from the last
non-comment occurrence of the directive (enabled unless that line contains
`no`, default enabled); whenever it is enabled the check emits exactly the
one HIGH password-authentication issue and returns before any key-algorithm
inspection; the scenario `PasswordAuthentication yes` followed by
`#PasswordAuthentication no` is enabled and yields that HIGH issue. -/
theorem c5_ssh_password_auth :
    (∀ content : String, password_auth_enabled content =
      (match lastNonCommentDirective "PasswordAuthentication".data content with
       | none => true
       | some l => !(listContainsSub (l.map pyLowerChar) "no".data))) ∧
    (∀ (content : String) (authKeys : List String) (now : String),
      password_auth_enabled content = true →
      check_ssh_config content authKeys now =
        [⟨"HIGH", "Security",
          "SSH is running with password authentication enabled",
          some "Password authentication should be disabled. Use key-based authentication with ed25519 or better",
          now⟩]) ∧
    (password_auth_enabled
        "PasswordAuthentication yes\n#PasswordAuthentication no" = true ∧
      (check_ssh_config "PasswordAuthentication yes\n#PasswordAuthentication no"
        [] "t").map Issue.severity = ["HIGH"]) := by
  refine ⟨password_auth_enabled_eq_spec, ?_, by decide, by decide⟩
  intro content authKeys now h
  rw [check_ssh_config, if_pos h]
  rfl

/-- C5 witness: a config enabling password authentication yields exactly the
HIGH issue. -/
theorem c5_witness :
    check_ssh_config "PasswordAuthentication yes" [] "t" =
      [⟨"HIGH", "Security",
        "SSH is running with password authentication enabled",
        some "Password authentication should be disabled. Use key-based authentication with ed25519 or better",
        "t"⟩] :=
  c5_ssh_password_auth.2.1 "PasswordAuthentication yes" [] "t" (by decide)

/-- C6: `_cfg` resolves environment variable (key uppercased) first, then the
config file when loaded and populated, then the default; a coercion failure
at a layer silently falls through to the next; boolean coercion of an
environment value is total, mapping case-insensitive `{true,1,yes,on}` to
true and every other string to false. -/
theorem c6_cfg_resolution :
    (∀ (env : String → Option String) (hc : Bool)
       (fc : String → String → Option String) (sect key : String)
       (d : CfgVal) (t : CfgType) (ev : String) (v : CfgVal),
      env (pyUpper key) = some ev → coerceEnv t ev = some v →
      cfgResolve env hc fc sect key d t = v) ∧
    (∀ (env : String → Option String) (fc : String → String → Option String)
       (sect key : String) (d : CfgVal) (t : CfgType) (ev fv : String)
       (v : CfgVal),
      env (pyUpper key) = some ev → coerceEnv t ev = none →
      fc sect key = some fv → coerceFile t fv = some v →
      cfgResolve env true fc sect key d t = v) ∧
    (∀ (env : String → Option String) (fc : String → String → Option String)
       (sect key : String) (d : CfgVal) (t : CfgType) (fv : String)
       (v : CfgVal),
      env (pyUpper key) = none → fc sect key = some fv →
      coerceFile t fv = some v → cfgResolve env true fc sect key d t = v) ∧
    (∀ (env : String → Option String) (fc : String → String → Option String)
       (sect key : String) (d : CfgVal) (t : CfgType),
      env (pyUpper key) = none → cfgResolve env false fc sect key d t = d) ∧
    (∀ (env : String → Option String) (fc : String → String → Option String)
       (sect key : String) (d : CfgVal) (t : CfgType),
      env (pyUpper key) = none → fc sect key = none →
      cfgResolve env true fc sect key d t = d) ∧
    (∀ (env : String → Option String) (fc : String → String → Option String)
       (sect key : String) (d : CfgVal) (t : CfgType) (fv : String),
      env (pyUpper key) = none → fc sect key = some fv →
      coerceFile t fv = none → cfgResolve env true fc sect key d t = d) ∧
    (∀ v : String, coerceEnv .tBool v =
      some (.vBool
        ((["true", "1", "yes", "on"] : List String).contains (pyLower v)))) := by
  refine ⟨?_, ?_, ?_, ?_, ?_, ?_, fun v => rfl⟩
  · intro env hc fc sect key d t ev v h1 h2
    simp [cfgResolve, h1, h2]
  · intro env fc sect key d t ev fv v h1 h2 h3 h4
    simp [cfgResolve, h1, h2, h3, h4]
  · intro env fc sect key d t fv v h1 h2 h3
    simp [cfgResolve, h1, h2, h3]
  · intro env fc sect key d t h1
    simp [cfgResolve, h1]
  · intro env fc sect key d t h1 h2
    simp [cfgResolve, h1, h2]
  · intro env fc sect key d t fv h1 h2 h3
    simp [cfgResolve, h1, h2, h3]

/-- C6 witness: with no config file, environment `PORT=25` resolves the
`(smtp, port)` integer setting to 25 over the default 0. -/
theorem c6_witness :
    cfgResolve (fun k => if k = "PORT" then some "25" else none) false
      (fun _ _ => none) "smtp" "port" (.vInt 0) .tInt = .vInt 25 :=
  c6_cfg_resolution.1 (fun k => if k = "PORT" then some "25" else none) false
    (fun _ _ => none) "smtp" "port" (.vInt 0) .tInt "25" (.vInt 25)
    (by decide) (by decide)

/-- C7 (amended): `parse_semantic_version` strips *all* leading `'v'`
characters (not just one), splits on `'.'`, and returns a triple exactly when
there are exactly 3 segments, each accepted by Python `int()` with a
non-negative value; any deviation yields `None`, and (by construction of the
total embedding, mirroring the enclosing `try/except`) no input raises. -/
theorem c7_parse_characterization :
    ∀ (s : String) (v : Int × Int × Int),
      parse_semantic_version s = some v ↔
        ∃ p1 p2 p3, pySplit '.' (lstripV s.data) = [p1, p2, p3] ∧
          pyIntList p1 = some v.1 ∧ pyIntList p2 = some v.2.1 ∧
          pyIntList p3 = some v.2.2 ∧ 0 ≤ v.1 ∧ 0 ≤ v.2.1 ∧ 0 ≤ v.2.2 := by
  intro s v
  obtain ⟨a, b, c⟩ := v
  dsimp only
  constructor
  · intro h
    rw [parse_semantic_version] at h
    split at h
    · split at h
      · split_ifs at h with hneg
        rename_i p1 p2 p3 hsplit o1 o2 o3 a1 b1 c1 h1 h2 h3
        push_neg at hneg
        obtain ⟨ha, hb, hc⟩ := hneg
        have hv : a1 = a ∧ b1 = b ∧ c1 = c := by simpa using h
        obtain ⟨hva, hvb, hvc⟩ := hv
        subst hva; subst hvb; subst hvc
        exact ⟨p1, p2, p3, hsplit, h1, h2, h3, ha, hb, hc⟩
      · exact absurd h (by simp)
    · exact absurd h (by simp)
  · rintro ⟨p1, p2, p3, hsplit, h1, h2, h3, ha, hb, hc⟩
    rw [parse_semantic_version, hsplit]
    simp only [h1, h2, h3]
    rw [if_neg (by omega)]

/-- C7 counterexample: `"vv1.2.3"` parses to `(1, 2, 3)` because
`lstrip("v")` strips every leading `'v'`; under the claim's "one optional
leading `v`" the remaining first segment would be `"v1"`, which `int()`
rejects, so the claim predicts unparseable. -/
theorem c7_counterexample :
    parse_semantic_version "vv1.2.3" = some (1, 2, 3) ∧ pyInt "v1" = none := by
  constructor <;> decide

/-- C7 witness: the characterization instantiated at `"v1.2.3"`. -/
theorem c7_witness :
    ∃ p1 p2 p3, pySplit '.' (lstripV ("v1.2.3" : String).data) = [p1, p2, p3] ∧
      pyIntList p1 = some ((1, 2, 3) : Int × Int × Int).1 ∧
      pyIntList p2 = some ((1, 2, 3) : Int × Int × Int).2.1 ∧
      pyIntList p3 = some ((1, 2, 3) : Int × Int × Int).2.2 ∧
      0 ≤ ((1, 2, 3) : Int × Int × Int).1 ∧
      0 ≤ ((1, 2, 3) : Int × Int × Int).2.1 ∧
      0 ≤ ((1, 2, 3) : Int × Int × Int).2.2 :=
  (c7_parse_characterization "v1.2.3" (1, 2, 3)).mp (by decide)

theorem tupLt_irrefl (a : Int × Int × Int) : tupLt a a = false := by
  obtain ⟨a1, a2, a3⟩ := a
  simp [tupLt]

theorem compare_versions_antisym (a b : Int × Int × Int) :
    compare_versions a b = -(compare_versions b a) := by
  obtain ⟨a1, a2, a3⟩ := a
  obtain ⟨b1, b2, b3⟩ := b
  rw [compare_versions, compare_versions]
  split_ifs <;>
    simp only [tupLt, Prod.mk.injEq, Bool.or_eq_true, Bool.and_eq_true,
      decide_eq_true_eq, Bool.not_eq_true, Bool.or_eq_false_iff,
      Bool.and_eq_false_iff, decide_eq_false_iff_not, not_and, not_or] at * <;>
    omega

theorem compare_versions_eq_neg_one (a b : Int × Int × Int) :
    compare_versions a b = -1 ↔ tupLt a b = true := by
  rw [compare_versions]
  split_ifs with h1 h2
  · simp [h1]
  · subst h2
    rw [tupLt_irrefl]
    norm_num
  · simp [h1]

theorem tupLt_trans {a b c : Int × Int × Int} (h1 : tupLt a b = true)
    (h2 : tupLt b c = true) : tupLt a c = true := by
  obtain ⟨a1, a2, a3⟩ := a
  obtain ⟨b1, b2, b3⟩ := b
  obtain ⟨c1, c2, c3⟩ := c
  simp only [tupLt, Bool.or_eq_true, Bool.and_eq_true, decide_eq_true_eq]
    at h1 h2 ⊢
  omega

/-- C8: `compare_versions` is a strict total order consistent with
lexicographic tuple comparison — antisymmetric (`compare(a,b) ==
-compare(b,a)`), transitive on `-1`, with `-1` exactly on lexicographically
smaller triples — and rendering any version triple to `"major.minor.patch"`
and parsing it back recovers the triple. -/
theorem c8_compare_order :
    (∀ a b : Int × Int × Int, compare_versions a b = -(compare_versions b a)) ∧
    (∀ a b c : Int × Int × Int, compare_versions a b = -1 →
      compare_versions b c = -1 → compare_versions a c = -1) ∧
    (∀ a b : Int × Int × Int, compare_versions a b = -1 ↔
      (a.1 < b.1 ∨ (a.1 = b.1 ∧ (a.2.1 < b.2.1 ∨
        (a.2.1 = b.2.1 ∧ a.2.2 < b.2.2))))) ∧
    (∀ v : Nat × Nat × Nat, parse_semantic_version (renderVersion v) =
      some ((v.1 : Int), (v.2.1 : Int), (v.2.2 : Int))) := by
  refine ⟨compare_versions_antisym, ?_, ?_, parse_renderVersion⟩
  · intro a b c h1 h2
    rw [compare_versions_eq_neg_one] at h1 h2 ⊢
    exact tupLt_trans h1 h2
  · intro a b
    rw [compare_versions_eq_neg_one]
    simp [tupLt]

/-- C8 witness: transitivity applied at `1.2.1 < 1.3.0 < 2.0.0`. -/
theorem c8_witness :
    compare_versions (1, 2, 1) (1, 3, 0) = -1 ∧
    compare_versions (1, 3, 0) (2, 0, 0) = -1 ∧
    compare_versions (1, 2, 1) (2, 0, 0) = -1 :=
  ⟨by decide, by decide,
    c8_compare_order.2.1 (1, 2, 1) (1, 3, 0) (2, 0, 0) (by decide) (by decide)⟩

theorem dictGet_dictIncr (d : List (String × Nat)) (t s : String) :
    dictGet (dictIncr d t) s = dictGet d s + (if t = s then 1 else 0) := by
  induction d with
  | nil =>
    by_cases h : t = s <;> simp [dictIncr, dictGet, h]
  | cons kv rest ih =>
    obtain ⟨k, v⟩ := kv
    by_cases hk : k = t
    · subst hk
      by_cases hs : k = s <;> simp [dictIncr, dictGet, hs]
    · by_cases hs : k = s
      · subst hs
        have ht2 : ¬(t = k) := fun hEq => hk hEq.symm
        simp [dictIncr, dictGet, hk, ht2]
      · simp [dictIncr, dictGet, hk, hs, ih]

theorem dictGet_severityCounts_aux (l : List Issue) (d : List (String × Nat))
    (s : String) :
    dictGet (l.foldl (fun acc i => dictIncr acc i.severity) d) s =
      dictGet d s + (l.filter (fun i => i.severity == s)).length := by
  induction l generalizing d with
  | nil => simp
  | cons i rest ih =>
    simp only [List.foldl_cons, List.filter_cons]
    rw [ih, dictGet_dictIncr]
    by_cases h : i.severity = s
    · simp [h]
      omega
    · simp [h]

theorem dictGet_severityCounts (issues : List Issue) (s : String) :
    dictGet (severityCounts issues) s =
      (issues.filter (fun i => i.severity == s)).length := by
  rw [severityCounts, dictGet_severityCounts_aux]
  simp [dictGet]

/-- C9: all four exporters report per-severity counts equal to a direct
count-by-severity over the store and agree on the total issue count; on the
empty store the JSON exporter's summary is `{}` and its issue list `[]`
(only severities that occurred appear), while the Markdown and text
exporters show all five severities zero-filled. -/
theorem c9_exporters_agree :
    (∀ (hostname ts dist ver date osLine : String)
       (osInfo : List (String × String)) (issues : List Issue) (sev : String),
      dictGet (export_json hostname ts osInfo issues).summary sev =
        (issues.filter (fun i => i.severity == sev)).length ∧
      dictGet (export_xml hostname ts dist ver issues).summary sev =
        (issues.filter (fun i => i.severity == sev)).length ∧
      (export_markdown hostname date osLine issues).summaryRows =
        SEVERITIES.map (fun s =>
          (s, (issues.filter (fun i => i.severity == s)).length)) ∧
      (export_text hostname date osLine issues).summaryRows =
        SEVERITIES.map (fun s =>
          (s, (issues.filter (fun i => i.severity == s)).length)) ∧
      (export_json hostname ts osInfo issues).issues.length = issues.length ∧
      (export_xml hostname ts dist ver issues).issues.length = issues.length ∧
      (export_markdown hostname date osLine issues).totalIssues =
        issues.length ∧
      (export_text hostname date osLine issues).totalIssues = issues.length) ∧
    (∀ (hostname ts : String) (osInfo : List (String × String)),
      (export_json hostname ts osInfo []).summary = [] ∧
      (export_json hostname ts osInfo []).issues = []) ∧
    (∀ hostname date osLine : String,
      (export_markdown hostname date osLine []).summaryRows =
        [("CRITICAL", 0), ("HIGH", 0), ("MEDIUM", 0), ("LOW", 0),
          ("INFO", 0)] ∧
      (export_text hostname date osLine []).summaryRows =
        [("CRITICAL", 0), ("HIGH", 0), ("MEDIUM", 0), ("LOW", 0),
          ("INFO", 0)]) := by
  refine ⟨?_, fun hostname ts osInfo => ⟨rfl, rfl⟩,
    fun hostname date osLine => ⟨rfl, rfl⟩⟩
  intro hostname ts dist ver date osLine osInfo issues sev
  refine ⟨dictGet_severityCounts issues sev, dictGet_severityCounts issues sev,
    ?_, ?_, rfl, rfl, rfl, rfl⟩ <;>
    simp [export_markdown, export_text, dictGet_severityCounts]

/-- C10: `encrypt_file_gpg` never consults `GPG_DELETE_UNENCRYPTED`: its
result is identical for both values of the flag; with encryption enabled, a
recipient set, `gpg` available and the invocation succeeding it removes the
plaintext and returns the `.gpg` sibling; if `gpg` is missing or the
invocation fails the plaintext is untouched and the original path
returned. -/
theorem c10_gpg_delete_flag :
    (∀ (e : Bool) (r : String) (b1 b2 gx : Bool) (grc : Int) (p : String),
      encrypt_file_gpg ⟨e, r, b1⟩ gx grc p =
        encrypt_file_gpg ⟨e, r, b2⟩ gx grc p) ∧
    (∀ (g : GpgSettings) (p : String), g.encrypt = true → g.recipient ≠ "" →
      encrypt_file_gpg g true 0 p = (p ++ ".gpg", true)) ∧
    (∀ (g : GpgSettings) (grc : Int) (p : String),
      encrypt_file_gpg g false grc p = (p, false)) ∧
    (∀ (g : GpgSettings) (gx : Bool) (grc : Int) (p : String), grc ≠ 0 →
      encrypt_file_gpg g gx grc p = (p, false)) := by
  refine ⟨fun e r b1 b2 gx grc p => rfl, ?_, ?_, ?_⟩
  · intro g p h1 h2
    simp [encrypt_file_gpg, h1, h2]
  · intro g grc p
    simp [encrypt_file_gpg]
  · intro g gx grc p h
    simp [encrypt_file_gpg, h]

/-- C10 witness: a successful gpg run on `report.md` with the delete flag
left at its default. -/
theorem c10_witness :
    encrypt_file_gpg ⟨true, "root@localhost", false⟩ true 0 "report.md" =
      ("report.md" ++ ".gpg", true) :=
  c10_gpg_delete_flag.2.1 ⟨true, "root@localhost", false⟩ "report.md" rfl
    (by decide)

end HealthCheck
